import Mathlib

/-!
Shallow embedding of the lease-lock core of
`src/webscrapbook/scrapbook/host.py` (class `FileLock`), together with
theorems checking the natural-language specification against it.

The filesystem holds at most the single lease file of the lock under
study; other processes may change it between the lock's own syscalls, so
each loop iteration of `acquire` observes an environment record (the
current time, the file state at the exclusive-create attempt, the file
state at the `os.stat` call, and whether a plain rewrite would succeed).
Injected `err` views stand for `OSError`s other than the specifically
caught ones.
-/

/-- The lease file: its content (the token bytes) and its
last-modification time, as reported by the filesystem. -/
structure LockFile where
  content : String
  mtime : Nat
  deriving Repr, DecidableEq

/-- What the filesystem reports for the lease file at one syscall:
absent, present with given content and mtime, or an injected `OSError`
other than `FileExistsError` / `FileNotFoundError`. -/
inductive FsView where
  | absent
  | present (f : LockFile)
  | err
  deriving Repr, DecidableEq

/-- The in-process state of a `FileLock` object: `id` is the lease token
(`self.id`), `lock` is the Held flag (`self._lock`), `keeper` is the
running renewal-task handle (`self._keeper`, `none` when no task runs),
`stale` and `timeout` are the configured durations. -/
structure LockState where
  id : String
  lock : Bool
  keeper : Option Nat
  stale : Nat
  timeout : Int
  deriving Repr, DecidableEq

/-- The exception taxonomy of `host.py` (lines 15-72), plus `nameError`
for Python's `NameError` raised when an f-string names an unbound
variable. -/
inductive LockErr where
  | timeoutError
  | generateError
  | regenerateError
  | persistOSError
  | persistUnmatchError
  | extendNotAcquiredError
  | extendNotFoundError
  | extendError
  | releaseNotAcquiredError
  | releaseNotFoundError
  | releaseError
  | nameError
  deriving Repr, DecidableEq

/-- One write the lock performs on the lease file: an exclusive create
(`open(self.file, 'x')`, line 172) or a plain overwrite of an existing
file (`open(self.file, 'w')`, line 194). -/
inductive WriteEvent where
  | create (f : LockFile)
  | rewrite (f : LockFile)
  deriving Repr, DecidableEq

/-- The lease file resulting from a write event. -/
def WriteEvent.written : WriteEvent → LockFile
  | .create f => f
  | .rewrite f => f

/-- Environment of one iteration of the acquisition loop (lines
170-208): `t` is `time.time()` at line 175, `openView` the file state at
the exclusive-create attempt of line 172, `statView` the file state at
the `os.stat` call of line 182, and `writeOk` whether the plain rewrite
of line 194 would succeed. -/
structure IterEnv where
  t : Nat
  openView : FsView
  statView : FsView
  writeOk : Bool
  deriving Repr, DecidableEq

/-- Outcome of an `acquire` call: lease held, still polling when the
environment trace ran out, or an exception. -/
inductive AcquireOut where
  | held
  | pending
  | err (e : LockErr)
  deriving Repr, DecidableEq

/-- Result of `acquire`: the outcome together with the log of writes it
performed on the lease file (the loop breaks right after a successful
create or rewrite, so the log has at most one entry). -/
structure AcquireRes where
  out : AcquireOut
  writes : List WriteEvent
  deriving Repr, DecidableEq

/-- `timeout_time` of line 160: `time.time() + timeout` for a
non-negative timeout, `float('inf')` (no deadline, `none`) otherwise. -/
def computeDeadline (now : Nat) (timeout : Int) : Option Nat :=
  if 0 ≤ timeout then some (now + timeout.toNat) else none

/-- The deadline test `t >= timeout_time` of line 177; always false
against the infinite deadline. -/
def deadlinePassed (deadline : Option Nat) (t : Nat) : Bool :=
  match deadline with
  | some d => decide (d ≤ t)
  | none => false

/-- The `while True` loop of `acquire` (lines 170-208), one list entry
per iteration.  Per iteration: attempt the exclusive create (success
breaks the loop with a `create` write; `FileExistsError` when the file
exists; other `OSError` raises `LockGenerateError`); on
`FileExistsError` take `t = time.time()`, raise `LockTimeoutError` if
`t >= timeout_time`, then `os.stat` (vanished file: `continue`; other
`OSError`: `LockGenerateError`); if `t >= st_mtime + stale` rewrite
plainly (success breaks with a `rewrite` write, failure raises
`LockRegenerateError`); otherwise sleep and retry. -/
def acquireLoop (id : String) (stale : Nat) (deadline : Option Nat) :
    List IterEnv → AcquireRes
  | [] => ⟨.pending, []⟩
  | e :: rest =>
    match e.openView with
    | .absent => ⟨.held, [.create ⟨id, e.t⟩]⟩
    | .err => ⟨.err .generateError, []⟩
    | .present _ =>
      if deadlinePassed deadline e.t then
        ⟨.err .timeoutError, []⟩
      else
        match e.statView with
        | .absent => acquireLoop id stale deadline rest
        | .err => ⟨.err .generateError, []⟩
        | .present f =>
          if f.mtime + stale ≤ e.t then
            if e.writeOk then ⟨.held, [.rewrite ⟨id, e.t⟩]⟩
            else ⟨.err .regenerateError, []⟩
          else
            acquireLoop id stale deadline rest

/-- Outcome of `os.makedirs(os.path.dirname(self.file))` at line 163:
created, already existed (`FileExistsError`, passed), or another
`OSError`. -/
inductive MakedirsResult where
  | ok
  | fileExists
  | osError
  deriving Repr, DecidableEq

/-- `FileLock.acquire` (lines 126-211).  `now` is `time.time()` at line
160, `timeoutArg` the `timeout` argument (`none` uses `self.timeout`).
Already locking returns at once (line 154).  In the makedirs `OSError`
branch, line 167 interpolates the variable `name`, which is unbound in
the method's scope, so evaluating the f-string raises Python's
`NameError` rather than constructing the intended `LockGenerateError`.
On a `held` outcome of the loop, line 210 sets `self._lock = True`. -/
def FileLock.acquire (lk : LockState) (now : Nat) (timeoutArg : Option Int)
    (mk : MakedirsResult) (envs : List IterEnv) : AcquireRes × LockState :=
  if lk.lock then (⟨.held, []⟩, lk)
  else
    match mk with
    | .osError => (⟨.err .nameError, []⟩, lk)
    | _ =>
      let timeout := timeoutArg.getD lk.timeout
      let r := acquireLoop lk.id lk.stale (computeDeadline now timeout) envs
      (r, if r.out = .held then { lk with lock := true } else lk)

/-- Python truthiness of the `persist` argument (line 103): `False` /
absent or the empty string are falsy. -/
def persistTruthy : Option String → Bool
  | none => false
  | some s => !(s = "")

/-- Model of `secrets.token_urlsafe()`: a fresh random URL-safe string
per call, modelled as a function of a seed drawn from a fresh supply. -/
def tokenUrlsafe (seed : Nat) : String :=
  "urlsafe-token-" ++ toString seed

/-- Outcome of constructing a `FileLock`: the object state and the
(unmodified) lease file, or the exception raised. -/
inductive InitOut where
  | ok (lk : LockState) (fs : Option LockFile)
  | err (e : LockErr)
  deriving Repr, DecidableEq

/-- `FileLock.__init__` (lines 94-118).  With a truthy `persist`, read
the lease file (`OSError`, including the absent-file case, raises
`LockPersistOSError`; a content mismatch fails the `assert`, raising
`LockPersistUnmatchError`); on a match the object starts Held with
`self.id = persist` and nothing is written.  Otherwise `self.id` is a
fresh `token_urlsafe()` and the object starts Not-held. -/
def FileLock.init (timeout : Int) (stale : Nat) (persist : Option String)
    (fs : Option LockFile) (readErr : Bool) (seed : Nat) : InitOut :=
  if persistTruthy persist then
    match persist with
    | none => .err .persistOSError
    | some p =>
      if readErr then .err .persistOSError
      else
        match fs with
        | none => .err .persistOSError
        | some f =>
          if f.content = p then .ok ⟨p, true, none, stale, timeout⟩ fs
          else .err .persistUnmatchError
  else
    .ok ⟨tokenUrlsafe seed, false, none, stale, timeout⟩ fs

/-- `FileLock.extend` (lines 213-227).  Not Held raises
`LockExtendNotAcquiredError`; `os.utime` on an absent file raises
`LockExtendNotFoundError`, another injected `OSError` raises
`LockExtendError`; on success the file's mtime becomes `now` and
nothing else changes. -/
def FileLock.extend (lk : LockState) (fs : Option LockFile) (now : Nat)
    (osErr : Bool) : Option LockErr × LockState × Option LockFile :=
  if lk.lock = false then (some .extendNotAcquiredError, lk, fs)
  else
    match fs with
    | none => (some .extendNotFoundError, lk, fs)
    | some f =>
      if osErr then (some .extendError, lk, fs)
      else (none, lk, some { f with mtime := now })

/-- `FileLock.release` (lines 229-245).  Not Held raises
`LockReleaseNotAcquiredError`; `os.remove` on an absent file raises
`LockReleaseNotFoundError`, another injected `OSError` raises
`LockReleaseError`; only on successful removal does line 245 set
`self._lock = False`. -/
def FileLock.release (lk : LockState) (fs : Option LockFile)
    (osErr : Bool) : Option LockErr × LockState × Option LockFile :=
  if lk.lock = false then (some .releaseNotAcquiredError, lk, fs)
  else
    match fs with
    | none => (some .releaseNotFoundError, lk, fs)
    | some _ =>
      if osErr then (some .releaseError, lk, fs)
      else (none, { lk with lock := false }, none)

/-- `FileLock.keep` (lines 247-260).  `fresh` is the handle a newly
spawned thread would get.  An already-running keeper is returned as is;
a Not-held object gets `none`; otherwise a new task is spawned and
recorded.  The middle component reports whether a task was started. -/
def FileLock.keep (lk : LockState) (fresh : Nat) :
    Option Nat × Bool × LockState :=
  match lk.keeper with
  | some k => (some k, false, lk)
  | none =>
    if lk.lock = false then (none, false, lk)
    else (some fresh, true, { lk with keeper := some fresh })

/-! ## Theorems checking the claims -/

/-- C1: for a lock object that is not Held whose lease file exists with
age beyond the stale threshold (`mtime + stale ≤ t`), an `acquire` whose
deadline has not expired succeeds in that very iteration: the file,
present at both the create attempt and the stat, is overwritten with the
object's token by a plain (non-exclusive) write and the state becomes
Held. -/
theorem acquire_stale_reclaim (lk : LockState) (f : LockFile)
    (now t : Nat) (timeoutArg : Option Int) (mk : MakedirsResult)
    (hlk : lk.lock = false) (hmk : mk ≠ .osError)
    (hdl : deadlinePassed (computeDeadline now (timeoutArg.getD lk.timeout)) t = false)
    (hstale : f.mtime + lk.stale ≤ t) :
    FileLock.acquire lk now timeoutArg mk [⟨t, .present f, .present f, true⟩]
      = (⟨.held, [.rewrite ⟨lk.id, t⟩]⟩, { lk with lock := true }) := by
  cases mk with
  | osError => exact absurd rfl hmk
  | ok => simp [FileLock.acquire, hlk, acquireLoop, hdl, hstale]
  | fileExists => simp [FileLock.acquire, hlk, acquireLoop, hdl, hstale]

/-- C1 witness. -/
theorem acquire_stale_reclaim_witness :
    FileLock.acquire ⟨"tokA", false, none, 60, 5⟩ 100 (some 5) .ok
      [⟨102, .present ⟨"tokB", 10⟩, .present ⟨"tokB", 10⟩, true⟩]
      = (⟨.held, [.rewrite ⟨"tokA", 102⟩]⟩, ⟨"tokA", true, none, 60, 5⟩) :=
  acquire_stale_reclaim ⟨"tokA", false, none, 60, 5⟩ ⟨"tokB", 10⟩ 100 102
    (some 5) .ok rfl (by decide) (by decide) (by decide)

/-- C2: for a lock object that is not Held, `acquire(timeout=0)` against
an existing fresh lease file (age below the stale threshold) raises
`LockTimeoutError` in the first iteration, performs no write (the write
log is empty, so the file's content and mtime are untouched), and leaves
the object Not-held. -/
theorem acquire_timeout_zero_fresh (lk : LockState) (f : LockFile)
    (now : Nat) (e : IterEnv) (rest : List IterEnv) (mk : MakedirsResult)
    (hlk : lk.lock = false) (hmk : mk ≠ .osError)
    (hopen : e.openView = .present f) (hmono : now ≤ e.t)
    (hfresh : e.t < f.mtime + lk.stale) :
    FileLock.acquire lk now (some 0) mk (e :: rest)
      = (⟨.err .timeoutError, []⟩, lk) := by
  have hdl : deadlinePassed (computeDeadline now 0) e.t = true := by
    simp [computeDeadline, deadlinePassed, hmono]
  cases mk with
  | osError => exact absurd rfl hmk
  | ok => simp [FileLock.acquire, hlk, acquireLoop, hopen, hdl]
  | fileExists => simp [FileLock.acquire, hlk, acquireLoop, hopen, hdl]

/-- C2 witness. -/
theorem acquire_timeout_zero_fresh_witness :
    FileLock.acquire ⟨"tokA", false, none, 60, 5⟩ 100 (some 0) .ok
      [⟨101, .present ⟨"tokB", 90⟩, .present ⟨"tokB", 90⟩, true⟩]
      = (⟨.err .timeoutError, []⟩, ⟨"tokA", false, none, 60, 5⟩) :=
  acquire_timeout_zero_fresh ⟨"tokA", false, none, 60, 5⟩ ⟨"tokB", 90⟩ 100
    ⟨101, .present ⟨"tokB", 90⟩, .present ⟨"tokB", 90⟩, true⟩ [] .ok
    rfl (by decide) rfl (by decide) (by decide)

/-- C3 counterexample: the claim says the vanished-file retry precedes
the deadline check, so the retry happens even when the deadline has
already passed.  In the code the deadline check (line 177) comes first:
here the create fails because the file exists, the file is absent at the
stat step, the deadline (now 10, timeout 0) has passed at t = 11, and
`acquire` raises `LockTimeoutError` instead of retrying — though a retry
would have succeeded at the next iteration, where the file is absent. -/
theorem acquire_vanished_after_deadline_counterexample :
    FileLock.acquire ⟨"tokA", false, none, 60, 5⟩ 10 (some 0) .ok
      [⟨11, .present ⟨"tokB", 0⟩, .absent, true⟩, ⟨12, .absent, .absent, true⟩]
      = (⟨.err .timeoutError, []⟩, ⟨"tokA", false, none, 60, 5⟩)
    ∧ acquireLoop "tokA" 60 (some 10) [⟨12, .absent, .absent, true⟩]
      = ⟨.held, [.create ⟨"tokA", 12⟩]⟩ := by
  exact ⟨rfl, rfl⟩

/-- C3 amended: in the acquisition loop, when the exclusive create fails
because the file exists, the deadline has NOT yet passed at this
iteration's time, and the file has vanished by the time its modification
time is read, the loop retries the exclusive create immediately —
without raising, writing, or sleeping in that iteration.  (The code
checks the deadline before the stat, so no such retry happens once the
deadline has passed.) -/
theorem acquireLoop_vanished_retries (id : String) (stale : Nat)
    (deadline : Option Nat) (e : IterEnv) (rest : List IterEnv) (f : LockFile)
    (hopen : e.openView = .present f) (hstat : e.statView = .absent)
    (hdl : deadlinePassed deadline e.t = false) :
    acquireLoop id stale deadline (e :: rest)
      = acquireLoop id stale deadline rest := by
  simp [acquireLoop, hopen, hstat, hdl]

/-- C3 witness. -/
theorem acquireLoop_vanished_retries_witness :
    acquireLoop "tokA" 60 (some 100) [⟨11, .present ⟨"tokB", 0⟩, .absent, true⟩]
      = acquireLoop "tokA" 60 (some 100) [] :=
  acquireLoop_vanished_retries "tokA" 60 (some 100)
    ⟨11, .present ⟨"tokB", 0⟩, .absent, true⟩ [] ⟨"tokB", 0⟩ rfl rfl (by decide)

/-- C4: when `os.makedirs` fails with an `OSError` other than
`FileExistsError`, line 167 evaluates the f-string
`f'unable to create lock "{name}"'`, whose variable `name` is unbound in
`acquire`'s scope (the attribute is `self.name`), so Python raises
`NameError` instead of the intended `LockGenerateError`; the
already-exists case is tolerated and acquisition proceeds to the loop. -/
theorem acquire_makedirs_oserror_raises_nameError :
    FileLock.acquire ⟨"tokA", false, none, 60, 5⟩ 0 none .osError []
      = (⟨.err .nameError, []⟩, ⟨"tokA", false, none, 60, 5⟩)
    ∧ FileLock.acquire ⟨"tokA", false, none, 60, 5⟩ 0 none .fileExists
        [⟨0, .absent, .absent, true⟩]
      = (⟨.held, [.create ⟨"tokA", 0⟩]⟩, ⟨"tokA", true, none, 60, 5⟩) := by
  exact ⟨rfl, rfl⟩

/-- C5: constructing a lock object with a (truthy) persist token: an
unreadable lease file — absent, or any read `OSError` — raises
`LockPersistOSError`; readable content differing from the token raises
`LockPersistUnmatchError`; content equal to the token initializes the
object directly into Held state with that token, with the lease file
passed through unmodified (no filesystem write). -/
theorem init_persist_handover (timeout : Int) (stale : Nat) (p : String)
    (fs : Option LockFile) (seed : Nat) (hp : p ≠ "") :
    (FileLock.init timeout stale (some p) fs true seed = .err .persistOSError)
    ∧ (FileLock.init timeout stale (some p) none false seed = .err .persistOSError)
    ∧ (∀ f : LockFile, f.content ≠ p →
        FileLock.init timeout stale (some p) (some f) false seed
          = .err .persistUnmatchError)
    ∧ (∀ f : LockFile, f.content = p →
        FileLock.init timeout stale (some p) (some f) false seed
          = .ok ⟨p, true, none, stale, timeout⟩ (some f)) := by
  refine ⟨?_, ?_, ?_, ?_⟩
  · simp [FileLock.init, persistTruthy, hp]
  · simp [FileLock.init, persistTruthy, hp]
  · intro f hf; simp [FileLock.init, persistTruthy, hp, hf]
  · intro f hf; simp [FileLock.init, persistTruthy, hp, hf]

/-- C5 witness. -/
theorem init_persist_handover_witness :
    FileLock.init 5 60 (some "tokP") (some ⟨"tokP", 3⟩) false 0
      = .ok ⟨"tokP", true, none, 60, 5⟩ (some ⟨"tokP", 3⟩) :=
  (init_persist_handover 5 60 "tokP" (some ⟨"tokP", 3⟩) 0 (by decide)).2.2.2
    ⟨"tokP", 3⟩ rfl

/-- Helper: for a Not-held object past a successful or tolerated
makedirs, the result component of `acquire` is exactly the loop's
result. -/
theorem acquire_fst (lk : LockState) (now : Nat) (timeoutArg : Option Int)
    (mk : MakedirsResult) (envs : List IterEnv)
    (hlk : lk.lock = false) (hmk : mk ≠ .osError) :
    (FileLock.acquire lk now timeoutArg mk envs).1
      = acquireLoop lk.id lk.stale
          (computeDeadline now (timeoutArg.getD lk.timeout)) envs := by
  cases mk with
  | osError => exact absurd rfl hmk
  | ok => simp [FileLock.acquire, hlk]
  | fileExists => simp [FileLock.acquire, hlk]

/-- Helper: with the infinite deadline (negative timeout) the
acquisition loop never produces `LockTimeoutError`, whatever the
environment does. -/
theorem acquireLoop_no_deadline_no_timeout (id : String) (stale : Nat)
    (envs : List IterEnv) :
    (acquireLoop id stale none envs).out ≠ .err .timeoutError := by
  induction envs with
  | nil => simp [acquireLoop]
  | cons e rest ih =>
    unfold acquireLoop
    cases e.openView with
    | absent => simp
    | err => simp
    | present f =>
      simp only [deadlinePassed, Bool.false_eq_true, if_false]
      cases e.statView with
      | absent => exact ih
      | err => simp
      | present g =>
        by_cases h3 : g.mtime + stale ≤ e.t
        · by_cases h4 : e.writeOk <;> simp [h3, h4]
        · simpa [h3] using ih

/-- C6: for `acquire` with a negative timeout the deadline is infinite
and `LockTimeoutError` is unreachable for every environment trace; the
call polls while the lease file stays fresh and completes successfully
— with an exclusive create of its token — once another holder releases
the file. -/
theorem acquire_negative_timeout_blocks (lk : LockState) (now : Nat)
    (timeout : Int) (mk : MakedirsResult) (f : LockFile) (t1 t2 : Nat)
    (hneg : timeout < 0) (hlk : lk.lock = false) (hmk : mk ≠ .osError)
    (hfresh : t1 < f.mtime + lk.stale) :
    (∀ envs, (FileLock.acquire lk now (some timeout) mk envs).1.out
        ≠ .err .timeoutError)
    ∧ FileLock.acquire lk now (some timeout) mk
        [⟨t1, .present f, .present f, true⟩, ⟨t2, .absent, .absent, true⟩]
      = (⟨.held, [.create ⟨lk.id, t2⟩]⟩, { lk with lock := true }) := by
  have hd : computeDeadline now ((some timeout).getD lk.timeout) = none := by
    simp [computeDeadline, not_le.mpr hneg]
  constructor
  · intro envs
    rw [acquire_fst lk now (some timeout) mk envs hlk hmk, hd]
    exact acquireLoop_no_deadline_no_timeout lk.id lk.stale envs
  · have hfresh2 : ¬ (f.mtime + lk.stale ≤ t1) := not_le.mpr hfresh
    cases mk with
    | osError => exact absurd rfl hmk
    | ok =>
      simp [FileLock.acquire, hlk, not_le.mpr hneg, computeDeadline,
        acquireLoop, deadlinePassed, hfresh2]
    | fileExists =>
      simp [FileLock.acquire, hlk, not_le.mpr hneg, computeDeadline,
        acquireLoop, deadlinePassed, hfresh2]

/-- C6 witness. -/
theorem acquire_negative_timeout_blocks_witness :
    FileLock.acquire ⟨"tokA", false, none, 60, 5⟩ 100 (some (-1)) .ok
      [⟨101, .present ⟨"tokB", 90⟩, .present ⟨"tokB", 90⟩, true⟩,
       ⟨102, .absent, .absent, true⟩]
      = (⟨.held, [.create ⟨"tokA", 102⟩]⟩, ⟨"tokA", true, none, 60, 5⟩) :=
  (acquire_negative_timeout_blocks ⟨"tokA", false, none, 60, 5⟩ 100 (-1) .ok
    ⟨"tokB", 90⟩ 101 102 (by decide) rfl (by decide) (by decide)).2

/-- C7: `release` on a Not-held object raises
`LockReleaseNotAcquiredError`; whenever `release` raises any error the
object's state and the lease file are unchanged — in particular a Held
object whose lease file has vanished stays Held after
`LockReleaseNotFoundError`; and a `release` that raises no error implies
the object was Held, the file was present, removal succeeded, and the
state transitions to Not-held with the file removed. -/
theorem release_state_transitions (lk : LockState) (fs : Option LockFile)
    (osErr : Bool) :
    (lk.lock = false →
      FileLock.release lk fs osErr = (some .releaseNotAcquiredError, lk, fs))
    ∧ (∀ e, (FileLock.release lk fs osErr).1 = some e →
        (FileLock.release lk fs osErr).2 = (lk, fs))
    ∧ (lk.lock = true → fs = none →
        FileLock.release lk fs osErr = (some .releaseNotFoundError, lk, none))
    ∧ ((FileLock.release lk fs osErr).1 = none →
        lk.lock = true ∧ osErr = false ∧ fs ≠ none ∧
        (FileLock.release lk fs osErr).2 = ({ lk with lock := false }, none)) := by
  rcases fs with _ | f <;> cases hl : lk.lock <;> cases osErr <;>
    simp [FileLock.release, hl]

/-- C7 witness: a Held object with a vanished lease file. -/
theorem release_state_transitions_witness :
    FileLock.release ⟨"tokA", true, none, 60, 5⟩ none false
      = (some .releaseNotFoundError, ⟨"tokA", true, none, 60, 5⟩, none) :=
  (release_state_transitions ⟨"tokA", true, none, 60, 5⟩ none false).2.2.1
    rfl rfl

/-- C8: for a Held object with an existing lease file, `extend` sets the
file's mtime to now, keeps its content and the object's Held state
unchanged, and raises nothing; on a Not-held object it raises
`LockExtendNotAcquiredError` and touches no file. -/
theorem extend_refreshes_mtime (lk : LockState) (f : LockFile)
    (fs : Option LockFile) (now : Nat) (osErr : Bool) :
    (lk.lock = true →
      FileLock.extend lk (some f) now false
        = (none, lk, some ⟨f.content, now⟩))
    ∧ (lk.lock = false →
      FileLock.extend lk fs now osErr
        = (some .extendNotAcquiredError, lk, fs)) := by
  cases hl : lk.lock <;> simp [FileLock.extend, hl]

/-- C8 witness. -/
theorem extend_refreshes_mtime_witness :
    FileLock.extend ⟨"tokA", true, none, 60, 5⟩ (some ⟨"tokA", 50⟩) 70 false
      = (none, ⟨"tokA", true, none, 60, 5⟩, some ⟨"tokA", 70⟩) :=
  (extend_refreshes_mtime ⟨"tokA", true, none, 60, 5⟩ ⟨"tokA", 50⟩
    (some ⟨"tokA", 50⟩) 70 false).1 rfl

/-- C9: `keep` is idempotent: with a renewal task already running it
returns the existing handle, spawns nothing and changes no state; on a
Not-held object with no task it returns none and spawns nothing; on a
Held object with no task the first call spawns exactly one task and a
second consecutive call returns that task's handle without spawning
another. -/
theorem keep_idempotent (lk : LockState) (k fresh fresh2 : Nat) :
    (lk.keeper = some k → FileLock.keep lk fresh = (some k, false, lk))
    ∧ (lk.keeper = none → lk.lock = false →
        FileLock.keep lk fresh = (none, false, lk))
    ∧ (lk.keeper = none → lk.lock = true →
        FileLock.keep lk fresh
          = (some fresh, true, { lk with keeper := some fresh })
        ∧ FileLock.keep { lk with keeper := some fresh } fresh2
          = (some fresh, false, { lk with keeper := some fresh })) := by
  refine ⟨?_, ?_, ?_⟩
  · intro hk; simp [FileLock.keep, hk]
  · intro hk hl; simp [FileLock.keep, hk, hl]
  · intro hk hl; constructor <;> simp [FileLock.keep, hk, hl]

/-- C9 witness: two consecutive `keep` calls on a Held object start
exactly one task. -/
theorem keep_idempotent_witness :
    FileLock.keep ⟨"tokA", true, none, 60, 5⟩ 1
      = (some 1, true, ⟨"tokA", true, some 1, 60, 5⟩)
    ∧ FileLock.keep ⟨"tokA", true, some 1, 60, 5⟩ 2
      = (some 1, false, ⟨"tokA", true, some 1, 60, 5⟩) :=
  (keep_idempotent ⟨"tokA", true, none, 60, 5⟩ 0 1 2).2.2 rfl rfl

/-- Helper: every write the acquisition loop performs carries the
object's token `id` as content. -/
theorem acquireLoop_writes_token (id : String) (stale : Nat)
    (deadline : Option Nat) (envs : List IterEnv) :
    ∀ w ∈ (acquireLoop id stale deadline envs).writes,
      w.written.content = id := by
  induction envs with
  | nil => simp [acquireLoop]
  | cons e rest ih =>
    unfold acquireLoop
    cases e.openView with
    | absent => simp [WriteEvent.written]
    | err => simp
    | present f =>
      by_cases hdl : deadlinePassed deadline e.t
      · simp [hdl]
      · simp only [hdl, Bool.false_eq_true, if_false]
        cases e.statView with
        | absent => exact ih
        | err => simp
        | present g =>
          by_cases h3 : g.mtime + stale ≤ e.t
          · by_cases h4 : e.writeOk <;> simp [h3, h4, WriteEvent.written]
          · simpa [h3] using ih

/-- C10 counterexample: the claim says every acquisition that
transitions the object to Held writes a token freshly generated for
that acquisition, so two acquisitions by the same object separated by a
release write distinct tokens.  In the code `self.id` is generated once
in `__init__` (line 117) and `acquire` only ever writes `self.id`: in
this concrete acquire/release/acquire run both acquisitions write the
very same token `tokenUrlsafe 7`, not distinct fresh ones. -/
theorem acquire_token_not_fresh_counterexample :
    FileLock.init 5 60 none none false 7
      = .ok ⟨tokenUrlsafe 7, false, none, 60, 5⟩ none
    ∧ FileLock.acquire ⟨tokenUrlsafe 7, false, none, 60, 5⟩ 0 none .ok
        [⟨0, .absent, .absent, true⟩]
      = (⟨.held, [.create ⟨tokenUrlsafe 7, 0⟩]⟩,
         ⟨tokenUrlsafe 7, true, none, 60, 5⟩)
    ∧ FileLock.release ⟨tokenUrlsafe 7, true, none, 60, 5⟩
        (some ⟨tokenUrlsafe 7, 0⟩) false
      = (none, ⟨tokenUrlsafe 7, false, none, 60, 5⟩, none)
    ∧ FileLock.acquire ⟨tokenUrlsafe 7, false, none, 60, 5⟩ 10 none .ok
        [⟨10, .absent, .absent, true⟩]
      = (⟨.held, [.create ⟨tokenUrlsafe 7, 10⟩]⟩,
         ⟨tokenUrlsafe 7, true, none, 60, 5⟩)
    ∧ (WriteEvent.create ⟨tokenUrlsafe 7, 0⟩).written.content
      = (WriteEvent.create ⟨tokenUrlsafe 7, 10⟩).written.content :=
  ⟨rfl, rfl, rfl, rfl, rfl⟩

/-- C10 amended: the lease token is a random URL-safe string generated
once, at the object's construction (unless adopted via persist), not at
each acquisition: every write any `acquire` call performs carries the
object's fixed token `lk.id`, and a non-persist construction sets that
token to the `token_urlsafe()` value drawn then.  Hence two successful
acquisitions by the same lock object separated by a release write the
same token. -/
theorem acquire_writes_construction_token (lk : LockState) (now : Nat)
    (timeoutArg : Option Int) (mk : MakedirsResult) (envs : List IterEnv)
    (timeout : Int) (stale : Nat) (fs : Option LockFile) (seed : Nat)
    (lk0 : LockState) (fs0 : Option LockFile) :
    (∀ w ∈ (FileLock.acquire lk now timeoutArg mk envs).1.writes,
        w.written.content = lk.id)
    ∧ (FileLock.init timeout stale none fs false seed = .ok lk0 fs0 →
        lk0.id = tokenUrlsafe seed) := by
  constructor
  · by_cases hl : lk.lock
    · simp [FileLock.acquire, hl]
    · cases mk with
      | osError => simp [FileLock.acquire, hl]
      | ok =>
        rw [acquire_fst lk now timeoutArg .ok envs (by simpa using hl)
          (by simp)]
        exact acquireLoop_writes_token lk.id lk.stale _ envs
      | fileExists =>
        rw [acquire_fst lk now timeoutArg .fileExists envs (by simpa using hl)
          (by simp)]
        exact acquireLoop_writes_token lk.id lk.stale _ envs
  · intro h
    simp only [FileLock.init, persistTruthy, Bool.false_eq_true, if_false] at h
    cases h
    rfl

/-- C10 amended witness. -/
theorem acquire_writes_construction_token_witness :
    (WriteEvent.create ⟨"tokA", 0⟩).written.content = "tokA" :=
  (acquire_writes_construction_token ⟨"tokA", false, none, 60, 5⟩ 0 none .ok
    [⟨0, .absent, .absent, true⟩] 5 60 none 7
    ⟨tokenUrlsafe 7, false, none, 60, 5⟩ none).1
    (WriteEvent.create ⟨"tokA", 0⟩) (by simp [FileLock.acquire, acquireLoop])
